import Mathlib

/-!
Verification development for the video-analytics dashboard frontend.

The source under scrutiny is a small React frontend consisting of
`App.js` (polling, WebSocket live channel, state slots), the
`Dashboard` component, the `SystemStats` component, and the
`DetectionFeed` component (whose `getObjectCounts` performs the
object-count aggregation).

The embedding below is a shallow one:

* The typed data model (`StatsSnapshot`, `LiveEvent`, ...) mirrors the
  JSON payloads named in the spec's external-interface section.  A
  `LiveEvent` carries `Option` fields because an incoming push frame is
  an arbitrary parsed JSON object: a field that the frame does not carry
  reads as JavaScript `undefined`, which we render as `none`.
* The render logic of `Dashboard` and `SystemStats` is transcribed
  expression by expression; JavaScript's `a || b` over a possibly
  undefined, possibly zero number is modelled by `jsOrNat` (both
  `undefined` and `0` are falsy), and `liveData?.f` by `Option.bind`.
* The event-driven runtime (the mount effect, the 2-second interval, the
  WebSocket callbacks, the fetch resolutions) is modelled as a step
  function `step : App → Ev → App` over traces of events.  React's
  documented behaviour that a state setter of an unmounted component is
  a no-op is modelled by the `mounted` guard inside each setter.
* The three fetch handlers are additionally modelled untyped
  (`Json`-valued) because the JavaScript code stores whatever
  `response.json()` yields, with no shape or status check.
-/

namespace VideoAnalytics

/-- Aggregate counters returned by `GET /stats` (`App.js` stores them in the
`stats` slot; fields as in the spec's external interface). -/
structure StatsSnapshot where
  total_frames_processed : Nat
  total_detections : Nat
  active_streams : Nat
  frame_queue_size : Nat
  results_queue_size : Nat
  deriving DecidableEq

/-- A single detected object, carrying its class label. -/
structure Detection where
  class_name : String
  deriving DecidableEq

/-- The `latest_detection` payload a push frame may carry. -/
structure LatestDetection where
  stream_id : String
  frame_number : Nat
  detections : List Detection
  deriving DecidableEq

/-- A parsed push frame as stored into the `liveData` slot by
`ws.onmessage`.  Each field is optional: a frame of the queue-depth shape
carries the two queue sizes, a frame of the detection shape carries
`latest_detection`, and an unrecognized shape carries none of them
(reading an absent property yields JavaScript `undefined`, i.e. `none`). -/
structure LiveEvent where
  frame_queue_size : Option Nat
  results_queue_size : Option Nat
  latest_detection : Option LatestDetection
  deriving DecidableEq

/-- One entry of the stream registry returned by `GET /streams`. -/
structure StreamSummary where
  id : Nat
  stream_id : String
  status : String
  frames_processed : Nat
  total_detections : Nat
  video_source : String
  deriving DecidableEq

/-- One historical detection record returned by `GET /detections`. -/
structure DetectionRecord where
  id : Nat
  stream_id : String
  frame_number : Nat
  detections : List Detection
  deriving DecidableEq

/-- JavaScript `a || b` where `a` is a possibly-undefined number and `b` a
number: `undefined` and `0` are both falsy, so the right operand is taken
exactly when `a` is absent or zero.  This is the expression
`(liveData?.frame_queue_size || stats.frame_queue_size)` in
`SystemStats`. -/
def jsOrNat (a : Option Nat) (b : Nat) : Nat :=
  match a with
  | some n => if n = 0 then b else n
  | none => b

/-- The queue-depth selection `liveData ? liveData.frame_queue_size :
stats.frame_queue_size` used by both `Dashboard` and `SystemStats`: if any
live event has been received the live object's field is read (which may be
`undefined`), otherwise the snapshot value is shown. -/
def liveOrSnapshotFrameQueue (stats : StatsSnapshot) (liveData : Option LiveEvent) :
    Option Nat :=
  match liveData with
  | some ld => ld.frame_queue_size
  | none => some stats.frame_queue_size

/-- Same selection for the results queue:
`liveData ? liveData.results_queue_size : stats.results_queue_size`. -/
def liveOrSnapshotResultsQueue (stats : StatsSnapshot) (liveData : Option LiveEvent) :
    Option Nat :=
  match liveData with
  | some ld => ld.results_queue_size
  | none => some stats.results_queue_size

/-- The spec's merge rule for queue depths, stated from the spec's words
(for comparison with the code's `liveOrSnapshotFrameQueue`): read from the
live event only when one has been received AND it is of the queue-depth
kind (it carries the field); otherwise fall back to the latest snapshot. -/
def specFrameQueueMerge (stats : StatsSnapshot) (liveData : Option LiveEvent) : Nat :=
  match liveData with
  | some ld =>
    match ld.frame_queue_size with
    | some n => n
    | none => stats.frame_queue_size
  | none => stats.frame_queue_size

/-- `(q).toFixed(1)` on an exact rational: round to one decimal digit and
print `"i.d"`.  (The JavaScript value is a binary double; on the exact
rationals of interest the rounding agrees.) -/
def toFixed1 (q : ℚ) : String :=
  let n : ℤ := round (q * 10)
  toString (n / 10) ++ "." ++ toString (n % 10)

/-- The number `stats.total_detections / stats.total_frames_processed`
computed by `Dashboard` inside the positive branch. -/
def avgValue (s : StatsSnapshot) : ℚ :=
  (s.total_detections : ℚ) / (s.total_frames_processed : ℚ)

/-- The string `Dashboard` renders for "Avg Detections/Frame":
`stats.total_frames_processed > 0 ? (total_detections /
total_frames_processed).toFixed(1) : '0.0'`. -/
def avgDetectionsDisplay (s : StatsSnapshot) : String :=
  if s.total_frames_processed > 0 then toFixed1 (avgValue s) else "0.0"

/-- What the `Dashboard` stat grid shows when it is rendered at all. -/
structure DashboardView where
  totalFrames : Nat
  totalDetections : Nat
  activeStreams : Nat
  frameQueue : Option Nat
  resultsQueue : Option Nat
  avgDisplay : String
  deriving DecidableEq

/-- The `Dashboard` component: with `stats` still `null` it renders only
the "Loading system stats..." placeholder (`none`); otherwise the stat
grid, with the queue cells taking the live value whenever a live event
exists and every other cell read from the snapshot. -/
def renderDashboard (stats : Option StatsSnapshot) (liveData : Option LiveEvent) :
    Option DashboardView :=
  match stats with
  | none => none
  | some s =>
    some
      { totalFrames := s.total_frames_processed
        totalDetections := s.total_detections
        activeStreams := s.active_streams
        frameQueue := liveOrSnapshotFrameQueue s liveData
        resultsQueue := liveOrSnapshotResultsQueue s liveData
        avgDisplay := avgDetectionsDisplay s }

/-- One queue card of the `SystemStats` "Queue Health" grid: the displayed
depth (possibly `undefined`) and whether the indicator shows "Healthy"
(`true`) or "Backlog" (`false`). -/
structure QueueCard where
  value : Option Nat
  healthy : Bool
  deriving DecidableEq

/-- The frame-queue card: value from the ternary on `liveData`, health
from `(liveData?.frame_queue_size || stats.frame_queue_size) === 0`. -/
def frameQueueCard (s : StatsSnapshot) (liveData : Option LiveEvent) : QueueCard :=
  { value := liveOrSnapshotFrameQueue s liveData
    healthy := jsOrNat (liveData.bind (fun ld => ld.frame_queue_size)) s.frame_queue_size = 0 }

/-- The results-queue card, analogous. -/
def resultsQueueCard (s : StatsSnapshot) (liveData : Option LiveEvent) : QueueCard :=
  { value := liveOrSnapshotResultsQueue s liveData
    healthy := jsOrNat (liveData.bind (fun ld => ld.results_queue_size)) s.results_queue_size = 0 }

/-- The `SystemStats` "Queue Health" section: the whole section is inside
`{stats && ...}`, so with `stats` still `null` nothing of it renders. -/
def renderQueueHealth (stats : Option StatsSnapshot) (liveData : Option LiveEvent) :
    Option (QueueCard × QueueCard) :=
  match stats with
  | none => none
  | some s => some (frameQueueCard s liveData, resultsQueueCard s liveData)

/-- Lookup of `counts[k]` on the association-list model of a JavaScript
object: the value at the first (and only) occurrence of the key, `0` when
absent (the code's `counts[k] || 0`). -/
def lookupCount (counts : List (String × Nat)) (k : String) : Nat :=
  match counts with
  | [] => 0
  | p :: rest => if p.1 = k then p.2 else lookupCount rest k

/-- Property write `counts[k] = v` on a JavaScript object: overwrite the
existing key in place, else append the new key. -/
def setCount (counts : List (String × Nat)) (k : String) (v : Nat) :
    List (String × Nat) :=
  match counts with
  | [] => [(k, v)]
  | p :: rest => if p.1 = k then (k, v) :: rest else p :: setCount rest k v

/-- Whether the object has the key at all. -/
def hasKey (counts : List (String × Nat)) (k : String) : Bool :=
  match counts with
  | [] => false
  | p :: rest => if p.1 = k then true else hasKey rest k

/-- One iteration of `getObjectCounts`'s `forEach` body:
`counts[det.class_name] = (counts[det.class_name] || 0) + 1`. -/
def bumpCount (counts : List (String × Nat)) (k : String) : List (String × Nat) :=
  setCount counts k (lookupCount counts k + 1)

/-- The `forEach` body applied to one detection. -/
def bumpStep (counts : List (String × Nat)) (det : Detection) : List (String × Nat) :=
  bumpCount counts det.class_name

/-- `DetectionFeed`'s `getObjectCounts`: fold the detection list into an
object mapping each class label to its occurrence count. -/
def getObjectCounts (detectionList : List Detection) : List (String × Nat) :=
  detectionList.foldl bumpStep []

/-- Number of occurrences of label `k` in a detection sequence (the
specification-side count used to state what the aggregation yields). -/
def labelCount (l : List Detection) (k : String) : Nat :=
  match l with
  | [] => 0
  | d :: rest => (if d.class_name = k then 1 else 0) + labelCount rest k

/-- An untyped JSON value, as produced by `response.json()`. -/
inductive Json
  | null
  | jbool (b : Bool)
  | jnum (n : Int)
  | jstr (s : String)
  | jarr (xs : List Json)
  | jobj (kvs : List (String × Json))

/-- Outcome of one `fetch` + `response.json()` round trip: the network
request throws, or an HTTP response of some status arrives whose body
either fails to parse as JSON (`none`) or parses to a value.  `fetch`
resolves on any HTTP status; only network failure rejects. -/
inductive FetchOutcome
  | netError
  | resp (status : Nat) (body : Option Json)

/-- `fetchStats` (`App.js`): `try { data = await (await fetch(...)).json();
setStats(data) } catch { console.error }` — a thrown fetch or a body that
fails to parse is swallowed leaving the slot unchanged; any parsed body
replaces the slot, with no `response.ok` or status check. -/
def fetchStatsPoll (stored : Json) (o : FetchOutcome) : Json :=
  match o with
  | .netError => stored
  | .resp _ none => stored
  | .resp _ (some j) => j

/-- `fetchStreams` (`App.js`), same handler shape as `fetchStatsPoll`. -/
def fetchStreamsPoll (stored : Json) (o : FetchOutcome) : Json :=
  match o with
  | .netError => stored
  | .resp _ none => stored
  | .resp _ (some j) => j

/-- `fetchRecentDetections` (`App.js`), same handler shape. -/
def fetchDetectionsPoll (stored : Json) (o : FetchOutcome) : Json :=
  match o with
  | .netError => stored
  | .resp _ none => stored
  | .resp _ (some j) => j

/-- The outcome of `JSON.parse` on one inbound WebSocket frame: either the
text was not valid JSON (`JSON.parse` throws), or it parsed to some object,
modelled by the `LiveEvent` fields it carries. -/
inductive Frame
  | malformed
  | parsed (v : LiveEvent)
  deriving DecidableEq

/-- The component state of `App` plus the runtime resources its two
effects own.  `mounted` models whether the component is still mounted
(React ignores state setters after unmount); `pollerActive` models the
interval timer being armed; `fetchesIssued` counts fetch calls issued;
`connectAttempts` counts `new WebSocket(...)` constructions. -/
structure App where
  stats : Option StatsSnapshot
  streams : List StreamSummary
  recentDetections : List DetectionRecord
  liveData : Option LiveEvent
  connected : Bool
  mounted : Bool
  pollerActive : Bool
  fetchesIssued : Nat
  connectAttempts : Nat
  deriving DecidableEq

/-- The state before the component mounts. -/
def initApp : App :=
  { stats := none
    streams := []
    recentDetections := []
    liveData := none
    connected := false
    mounted := false
    pollerActive := false
    fetchesIssued := 0
    connectAttempts := 0 }

/-- `setStats(v)`: a React state setter, a no-op once unmounted. -/
def setStats (s : App) (v : StatsSnapshot) : App :=
  if s.mounted then { s with stats := some v } else s

/-- `setStreams(v)`. -/
def setStreams (s : App) (v : List StreamSummary) : App :=
  if s.mounted then { s with streams := v } else s

/-- `setRecentDetections(v)`. -/
def setRecentDetections (s : App) (v : List DetectionRecord) : App :=
  if s.mounted then { s with recentDetections := v } else s

/-- `setLiveData(v)`. -/
def setLiveData (s : App) (v : LiveEvent) : App :=
  if s.mounted then { s with liveData := some v } else s

/-- `setConnected(b)`. -/
def setConnected (s : App) (b : Bool) : App :=
  if s.mounted then { s with connected := b } else s

/-- The events the single-threaded event loop can deliver to `App`:
mounting (which runs both effects: the three immediate fetches, the
`setInterval`, and the `new WebSocket`), an interval tick (three more
fetches, only while the timer is armed), the typed resolution of each
fetch, a failed fetch (caught, logged, nothing stored), the four WebSocket
callbacks, and unmounting (both effect cleanups: `clearInterval`, and
closing the socket). -/
inductive Ev
  | mount
  | tick
  | statsOk (v : StatsSnapshot)
  | streamsOk (v : List StreamSummary)
  | detectionsOk (v : List DetectionRecord)
  | fetchFail
  | wsOpen
  | wsMsg (f : Frame)
  | wsClose
  | wsError
  | unmount
  deriving DecidableEq

/-- One event delivered to the app.  Each branch transcribes the
corresponding handler in `App.js`; a `malformed` frame makes `JSON.parse`
throw before `setLiveData` is reached, so state is unchanged (the
exception itself is tracked by `onmessage` below); `wsError`'s handler
only logs; the cleanup clears the interval and closes the socket but
schedules nothing. -/
def step (s : App) (e : Ev) : App :=
  match e with
  | .mount =>
    { s with
      mounted := true
      pollerActive := true
      fetchesIssued := s.fetchesIssued + 3
      connectAttempts := s.connectAttempts + 1 }
  | .tick => if s.pollerActive then { s with fetchesIssued := s.fetchesIssued + 3 } else s
  | .statsOk v => setStats s v
  | .streamsOk v => setStreams s v
  | .detectionsOk v => setRecentDetections s v
  | .fetchFail => s
  | .wsOpen => setConnected s true
  | .wsMsg f =>
    match f with
    | .malformed => s
    | .parsed v => setLiveData s v
  | .wsClose => setConnected s false
  | .wsError => s
  | .unmount => { s with mounted := false, pollerActive := false }

/-- Run a trace of events. -/
def run (s : App) (tr : List Ev) : App :=
  tr.foldl step s

/-- `ws.onmessage` at the exception level: `const data =
JSON.parse(event.data); setLiveData(data);` with no `try`/`catch`, so a
frame that is not valid JSON throws out of the handler (`Except.error`),
and every successfully parsed frame — of any shape — is stored. -/
def onmessage (s : App) (f : Frame) : Except Unit App :=
  match f with
  | .malformed => Except.error ()
  | .parsed v => Except.ok (setLiveData s v)

/-- A concrete snapshot (the spec's end-to-end scenario values). -/
def snap3 : StatsSnapshot :=
  { total_frames_processed := 100
    total_detections := 50
    active_streams := 2
    frame_queue_size := 3
    results_queue_size := 1 }

/-- A snapshot with no frames processed yet. -/
def zeroSnap : StatsSnapshot :=
  { total_frames_processed := 0
    total_detections := 0
    active_streams := 0
    frame_queue_size := 0
    results_queue_size := 0 }

/-- A live event of the detection kind only: it carries no queue-depth
fields. -/
def detOnlyEvent : LiveEvent :=
  { frame_queue_size := none
    results_queue_size := none
    latest_detection :=
      some { stream_id := "cam-1", frame_number := 42, detections := [⟨"car"⟩] } }

/-- A parsed frame of unrecognized shape: none of the recognized fields
are present. -/
def junkEvent : LiveEvent :=
  { frame_queue_size := none
    results_queue_size := none
    latest_detection := none }

/-- A queue-depth live event reporting both queues empty. -/
def queueZeroEvent : LiveEvent :=
  { frame_queue_size := some 0
    results_queue_size := some 0
    latest_detection := none }

/-- The app just after mounting and a successful WebSocket handshake. -/
def appLive : App :=
  run initApp [Ev.mount, Ev.wsOpen]

/-- The app after mounting, one successful `/stats` poll, and a
queue-depth live event reporting both depths as `0`. -/
def appC9 : App :=
  run initApp [Ev.mount, Ev.statsOk snap3, Ev.wsMsg (Frame.parsed queueZeroEvent)]

/-- The app after mounting, a successful `/stats` poll, and the
WebSocket handshake. -/
def appStocked : App :=
  run initApp [Ev.mount, Ev.statsOk snap3, Ev.wsOpen]

/-- What the `Dashboard` grid shows for `snap3` merged with the
detection-only live event. -/
def dashViewDet : DashboardView :=
  { totalFrames := 100
    totalDetections := 50
    activeStreams := 2
    frameQueue := none
    resultsQueue := none
    avgDisplay := avgDetectionsDisplay snap3 }

/-- A stream-registry payload as previously stored (untyped). -/
def goodStreams : Json :=
  Json.jarr [Json.jobj [("id", Json.jnum 1), ("stream_id", Json.jstr "cam-1")]]

/-- The JSON body a server typically attaches to a non-success response. -/
def errBody : Json :=
  Json.jobj [("detail", Json.jstr "Internal Server Error")]

/-! ### Helper lemmas: the object-count aggregation -/

theorem lookupCount_setCount_self (counts : List (String × Nat)) (k : String) (v : Nat) :
    lookupCount (setCount counts k v) k = v := by
  induction counts with
  | nil => simp [setCount, lookupCount]
  | cons p rest ih =>
    by_cases h : p.1 = k
    · simp [setCount, lookupCount, h]
    · simp [setCount, lookupCount, h, ih]

theorem lookupCount_setCount_ne (counts : List (String × Nat)) (k q : String) (v : Nat)
    (h : q ≠ k) : lookupCount (setCount counts k v) q = lookupCount counts q := by
  induction counts with
  | nil => simp [setCount, lookupCount, Ne.symm h]
  | cons p rest ih =>
    by_cases hp : p.1 = k
    · simp [setCount, lookupCount, hp, Ne.symm h]
    · simp [setCount, lookupCount, hp, ih]

theorem hasKey_setCount_self (counts : List (String × Nat)) (k : String) (v : Nat) :
    hasKey (setCount counts k v) k = true := by
  induction counts with
  | nil => simp [setCount, hasKey]
  | cons p rest ih =>
    by_cases hp : p.1 = k
    · simp [setCount, hasKey, hp]
    · simp [setCount, hasKey, hp, ih]

theorem hasKey_setCount_ne (counts : List (String × Nat)) (k q : String) (v : Nat)
    (h : q ≠ k) : hasKey (setCount counts k v) q = hasKey counts q := by
  induction counts with
  | nil => simp [setCount, hasKey, Ne.symm h]
  | cons p rest ih =>
    by_cases hp : p.1 = k
    · simp [setCount, hasKey, hp, Ne.symm h]
    · simp [setCount, hasKey, hp, ih]

theorem lookupCount_foldl (l : List Detection) (acc : List (String × Nat)) (k : String) :
    lookupCount (l.foldl bumpStep acc) k = lookupCount acc k + labelCount l k := by
  induction l generalizing acc with
  | nil => simp [labelCount]
  | cons d rest ih =>
    rw [List.foldl_cons, ih]
    by_cases h : d.class_name = k
    · rw [bumpStep, bumpCount, h, lookupCount_setCount_self]
      simp [labelCount, h]
      omega
    · rw [bumpStep, bumpCount, lookupCount_setCount_ne _ _ _ _ (fun hq => h hq.symm)]
      simp [labelCount, h]

theorem hasKey_foldl (l : List Detection) (acc : List (String × Nat)) (k : String) :
    hasKey (l.foldl bumpStep acc) k = true ↔
      (hasKey acc k = true ∨ 0 < labelCount l k) := by
  induction l generalizing acc with
  | nil => simp [labelCount]
  | cons d rest ih =>
    rw [List.foldl_cons, ih]
    by_cases h : d.class_name = k
    · have h1 : hasKey (bumpStep acc d) k = true := by
        rw [bumpStep, bumpCount, h]
        exact hasKey_setCount_self acc k (lookupCount acc k + 1)
      simp [h1, labelCount, h]
    · have h1 : hasKey (bumpStep acc d) k = hasKey acc k := by
        rw [bumpStep, bumpCount]
        exact hasKey_setCount_ne acc d.class_name k _ (fun hq => h hq.symm)
      rw [h1]
      simp [labelCount, h]

/-! ### Helper lemmas: the event-trace semantics -/

theorem step_unmounted (s : App) (e : Ev) (hm : s.mounted = false)
    (hp : s.pollerActive = false) (he : e ≠ Ev.mount) : step s e = s := by
  cases e with
  | mount => exact absurd rfl he
  | tick => simp [step, hp]
  | statsOk v => simp [step, setStats, hm]
  | streamsOk v => simp [step, setStreams, hm]
  | detectionsOk v => simp [step, setRecentDetections, hm]
  | fetchFail => rfl
  | wsOpen => simp [step, setConnected, hm]
  | wsMsg f =>
    cases f with
    | malformed => rfl
    | parsed v => simp [step, setLiveData, hm]
  | wsClose => simp [step, setConnected, hm]
  | wsError => rfl
  | unmount =>
    cases s
    simp_all [step]

theorem run_unmounted (tr : List Ev) (s : App) (hm : s.mounted = false)
    (hp : s.pollerActive = false) (htr : Ev.mount ∉ tr) : run s tr = s := by
  induction tr generalizing s with
  | nil => rfl
  | cons e rest ih =>
    have he : e ≠ Ev.mount := fun h => htr (h ▸ List.mem_cons_self e rest)
    have h2 : Ev.mount ∉ rest := fun h => htr (List.mem_cons_of_mem e h)
    calc run s (e :: rest) = run (step s e) rest := rfl
    _ = run s rest := by rw [step_unmounted s e hm hp he]
    _ = s := ih s hm hp h2

theorem step_connectAttempts (s : App) (e : Ev) (he : e ≠ Ev.mount) :
    (step s e).connectAttempts = s.connectAttempts := by
  cases e with
  | mount => exact absurd rfl he
  | tick => by_cases hp : s.pollerActive <;> simp [step, hp]
  | statsOk v => by_cases hm : s.mounted <;> simp [step, setStats, hm]
  | streamsOk v => by_cases hm : s.mounted <;> simp [step, setStreams, hm]
  | detectionsOk v => by_cases hm : s.mounted <;> simp [step, setRecentDetections, hm]
  | fetchFail => rfl
  | wsOpen => by_cases hm : s.mounted <;> simp [step, setConnected, hm]
  | wsMsg f =>
    cases f with
    | malformed => rfl
    | parsed v => by_cases hm : s.mounted <;> simp [step, setLiveData, hm]
  | wsClose => by_cases hm : s.mounted <;> simp [step, setConnected, hm]
  | wsError => rfl
  | unmount => rfl

theorem run_connectAttempts (tr : List Ev) (s : App) (htr : Ev.mount ∉ tr) :
    (run s tr).connectAttempts = s.connectAttempts := by
  induction tr generalizing s with
  | nil => rfl
  | cons e rest ih =>
    have he : e ≠ Ev.mount := fun h => htr (h ▸ List.mem_cons_self e rest)
    have h2 : Ev.mount ∉ rest := fun h => htr (List.mem_cons_of_mem e h)
    calc (run s (e :: rest)).connectAttempts
        = (run (step s e) rest).connectAttempts := rfl
    _ = (step s e).connectAttempts := ih (step s e) h2
    _ = s.connectAttempts := step_connectAttempts s e he

/-! ### The claims -/

/-- Claim C1, counterexample.  The claim says a queue depth is read from
the live event only when the event is of the queue-depth kind, and
otherwise falls back to the snapshot.  With snapshot `snap3`
(frame-queue depth 3) and a live event of the detection kind only, the
spec-side merge yields the snapshot's 3, but `Dashboard` renders the live
object's absent field — `undefined` (`none`) — because the code's ternary
tests only whether any live event exists, not its kind. -/
theorem c1_counterexample :
    specFrameQueueMerge snap3 (some detOnlyEvent) = snap3.frame_queue_size ∧
    (renderDashboard (some snap3) (some detOnlyEvent)).map DashboardView.frameQueue =
      some none ∧
    (renderDashboard (some snap3) (some detOnlyEvent)).map DashboardView.frameQueue ≠
      some (some (specFrameQueueMerge snap3 (some detOnlyEvent))) := by
  refine ⟨rfl, rfl, ?_⟩
  intro h
  simp [renderDashboard, liveOrSnapshotFrameQueue, detOnlyEvent, specFrameQueueMerge,
    snap3] at h

/-- Claim C1, amended: in the merged view, the queue-depth cells are read
from the live event whenever one has been received — regardless of its
kind, so a live event without the field displays `undefined` — and fall
back to the snapshot only when no live event exists; totals
(`total_frames_processed`, `total_detections`, `active_streams`) are
always read from the snapshot; `SystemStats` displays the same queue
values as `Dashboard`. -/
theorem c1_amended_merge (s : StatsSnapshot) (live : Option LiveEvent)
    (v : DashboardView) (h : renderDashboard (some s) live = some v) :
    v.totalFrames = s.total_frames_processed ∧
    v.totalDetections = s.total_detections ∧
    v.activeStreams = s.active_streams ∧
    v.frameQueue = (match live with
      | some ld => ld.frame_queue_size
      | none => some s.frame_queue_size) ∧
    v.resultsQueue = (match live with
      | some ld => ld.results_queue_size
      | none => some s.results_queue_size) ∧
    (renderQueueHealth (some s) live).map (fun p => (p.1.value, p.2.value)) =
      some (v.frameQueue, v.resultsQueue) := by
  have hv : ({ totalFrames := s.total_frames_processed
               totalDetections := s.total_detections
               activeStreams := s.active_streams
               frameQueue := liveOrSnapshotFrameQueue s live
               resultsQueue := liveOrSnapshotResultsQueue s live
               avgDisplay := avgDetectionsDisplay s } : DashboardView) = v := by
    simpa [renderDashboard] using h
  subst hv
  cases live with
  | none => exact ⟨rfl, rfl, rfl, rfl, rfl, rfl⟩
  | some ld => exact ⟨rfl, rfl, rfl, rfl, rfl, rfl⟩

/-- Witness for the amended C1 at the concrete snapshot `snap3` and the
detection-only live event. -/
theorem c1_amended_merge_witness :
    dashViewDet.totalFrames = snap3.total_frames_processed ∧
    dashViewDet.totalDetections = snap3.total_detections ∧
    dashViewDet.activeStreams = snap3.active_streams ∧
    dashViewDet.frameQueue = (match some detOnlyEvent with
      | some ld => ld.frame_queue_size
      | none => some snap3.frame_queue_size) ∧
    dashViewDet.resultsQueue = (match some detOnlyEvent with
      | some ld => ld.results_queue_size
      | none => some snap3.results_queue_size) ∧
    (renderQueueHealth (some snap3) (some detOnlyEvent)).map
        (fun p => (p.1.value, p.2.value)) =
      some (dashViewDet.frameQueue, dashViewDet.resultsQueue) :=
  c1_amended_merge snap3 (some detOnlyEvent) dashViewDet rfl

/-- Claim C2, counterexample.  In the state reached by mounting and a
successful handshake (`connected = true`), a transport-error event leaves
`connected` at `true` — the `onerror` handler only logs, so no transition
to Disconnected happens — and a close event creates no new connection
attempt (`connectAttempts` unchanged), so no reconnect is scheduled. -/
theorem c2_counterexample :
    appLive.connected = true ∧
    (step appLive Ev.wsError).connected = true ∧
    (step appLive Ev.wsClose).connectAttempts = appLive.connectAttempts :=
  ⟨rfl, rfl, rfl⟩

/-- Claim C2, amended: a close event transitions `ConnectionState` to
Disconnected (once per event); a transport-error event alone leaves
`ConnectionState` unchanged; and no reconnect attempt is ever scheduled —
along any trace that does not remount the component, the number of
`new WebSocket` constructions stays constant, so the channel never
reconnects. -/
theorem c2_amended_close_no_reconnect (s : App) (tr : List Ev)
    (hm : s.mounted = true) (htr : Ev.mount ∉ tr) :
    (step s Ev.wsClose).connected = false ∧
    (step s Ev.wsError).connected = s.connected ∧
    (run s tr).connectAttempts = s.connectAttempts := by
  refine ⟨?_, rfl, run_connectAttempts tr s htr⟩
  simp [step, setConnected, hm]

/-- Witness for the amended C2 at the mounted, connected app and a trace
of two closes, a tick and an error. -/
theorem c2_amended_close_no_reconnect_witness :
    (step appLive Ev.wsClose).connected = false ∧
    (step appLive Ev.wsError).connected = appLive.connected ∧
    (run appLive [Ev.wsClose, Ev.tick, Ev.wsError, Ev.wsClose]).connectAttempts =
      appLive.connectAttempts :=
  c2_amended_close_no_reconnect appLive [Ev.wsClose, Ev.tick, Ev.wsError, Ev.wsClose]
    rfl (by decide)

/-- Claim C3, counterexample.  A frame that fails to decode makes
`JSON.parse` throw out of `ws.onmessage` (an uncaught `Except.error`, not
a logged drop), and a successfully parsed frame of unrecognized shape
(`junkEvent`, none of the recognized fields) IS published as the live
event via `setLiveData`, not ignored — both contrary to the claim. -/
theorem c3_counterexample :
    onmessage appLive Frame.malformed = Except.error () ∧
    onmessage appLive (Frame.parsed junkEvent) =
      Except.ok (setLiveData appLive junkEvent) ∧
    (setLiveData appLive junkEvent).liveData = some junkEvent ∧
    appLive.liveData = none :=
  ⟨rfl, rfl, rfl, rfl⟩

/-- Claim C3, amended: a frame that fails to decode throws an uncaught
error out of the message handler (there is no catch), leaving the stored
state unreached; every successfully parsed frame — of any shape — is
published as the live event; in both cases `ConnectionState` and the
snapshot slots are unchanged. -/
theorem c3_amended_onmessage (s : App) (v : LiveEvent) (hm : s.mounted = true) :
    onmessage s Frame.malformed = Except.error () ∧
    onmessage s (Frame.parsed v) = Except.ok (setLiveData s v) ∧
    (setLiveData s v).liveData = some v ∧
    (setLiveData s v).connected = s.connected ∧
    (setLiveData s v).stats = s.stats := by
  refine ⟨rfl, rfl, ?_, ?_, ?_⟩ <;> simp [setLiveData, hm]

/-- Witness for the amended C3 at the live app and the queue-depth
event. -/
theorem c3_amended_onmessage_witness :
    onmessage appLive Frame.malformed = Except.error () ∧
    onmessage appLive (Frame.parsed queueZeroEvent) =
      Except.ok (setLiveData appLive queueZeroEvent) ∧
    (setLiveData appLive queueZeroEvent).liveData = some queueZeroEvent ∧
    (setLiveData appLive queueZeroEvent).connected = appLive.connected ∧
    (setLiveData appLive queueZeroEvent).stats = appLive.stats :=
  c3_amended_onmessage appLive queueZeroEvent rfl

/-- Claim C4, counterexample.  `fetchStreams` performs no `response.ok`
(status) check: a 500 response whose error body parses as JSON overwrites
the previously stored stream collection with that body, so a failing poll
by non-success HTTP status does NOT leave the collection unchanged. -/
theorem c4_counterexample :
    fetchStreamsPoll goodStreams (FetchOutcome.resp 500 (some errBody)) = errBody ∧
    errBody ≠ goodStreams := by
  refine ⟨rfl, ?_⟩
  intro h
  exact Json.noConfusion h

/-- Claim C4, amended: for each of the three polls, a network error or a
body that fails to parse as JSON leaves the stored collection unchanged,
but any response whose body parses as JSON — regardless of HTTP status —
replaces the stored collection with that body. -/
theorem c4_amended_poll_updates (stored : Json) (st : Nat) (j : Json) :
    fetchStreamsPoll stored FetchOutcome.netError = stored ∧
    fetchStreamsPoll stored (FetchOutcome.resp st none) = stored ∧
    fetchStreamsPoll stored (FetchOutcome.resp st (some j)) = j ∧
    fetchStatsPoll stored FetchOutcome.netError = stored ∧
    fetchStatsPoll stored (FetchOutcome.resp st none) = stored ∧
    fetchStatsPoll stored (FetchOutcome.resp st (some j)) = j ∧
    fetchDetectionsPoll stored FetchOutcome.netError = stored ∧
    fetchDetectionsPoll stored (FetchOutcome.resp st none) = stored ∧
    fetchDetectionsPoll stored (FetchOutcome.resp st (some j)) = j :=
  ⟨rfl, rfl, rfl, rfl, rfl, rfl, rfl, rfl, rfl⟩

/-- Claim C5: after teardown (unmount: interval cleared, socket closed,
state setters dead), no event of any later trace — fetch resolutions
included — mutates the stored `stats`, `streams`, `recentDetections`, or
`liveData`; a state setter of an unmounted component is a no-op. -/
theorem c5_no_mutation_after_teardown (s : App) (tr : List Ev)
    (htr : Ev.mount ∉ tr) :
    (run (step s Ev.unmount) tr).stats = s.stats ∧
    (run (step s Ev.unmount) tr).streams = s.streams ∧
    (run (step s Ev.unmount) tr).recentDetections = s.recentDetections ∧
    (run (step s Ev.unmount) tr).liveData = s.liveData := by
  rw [run_unmounted tr (step s Ev.unmount) rfl rfl htr]
  exact ⟨rfl, rfl, rfl, rfl⟩

/-- Witness for C5: the stocked app, torn down, then hit by a late
`/stats` result, a failed fetch, a tick and a late push frame. -/
theorem c5_no_mutation_after_teardown_witness :
    (run (step appStocked Ev.unmount)
        [Ev.statsOk zeroSnap, Ev.fetchFail, Ev.tick,
          Ev.wsMsg (Frame.parsed junkEvent)]).stats = appStocked.stats ∧
    (run (step appStocked Ev.unmount)
        [Ev.statsOk zeroSnap, Ev.fetchFail, Ev.tick,
          Ev.wsMsg (Frame.parsed junkEvent)]).streams = appStocked.streams ∧
    (run (step appStocked Ev.unmount)
        [Ev.statsOk zeroSnap, Ev.fetchFail, Ev.tick,
          Ev.wsMsg (Frame.parsed junkEvent)]).recentDetections =
      appStocked.recentDetections ∧
    (run (step appStocked Ev.unmount)
        [Ev.statsOk zeroSnap, Ev.fetchFail, Ev.tick,
          Ev.wsMsg (Frame.parsed junkEvent)]).liveData = appStocked.liveData :=
  c5_no_mutation_after_teardown appStocked
    [Ev.statsOk zeroSnap, Ev.fetchFail, Ev.tick, Ev.wsMsg (Frame.parsed junkEvent)]
    (by decide)

/-- Claim C6: once the poller is stopped (`clearInterval` in the unmount
cleanup), no further snapshot fetch is ever issued: along any later trace
— in particular any number of elapsed timer periods — the count of issued
fetches stays constant. -/
theorem c6_no_fetch_after_stop (s : App) (tr : List Ev) (htr : Ev.mount ∉ tr) :
    (run (step s Ev.unmount) tr).fetchesIssued = s.fetchesIssued := by
  rw [run_unmounted tr (step s Ev.unmount) rfl rfl htr]
  rfl

/-- Witness for C6: four timer periods elapse after stop and no fetch is
issued. -/
theorem c6_no_fetch_after_stop_witness :
    (run (step appLive Ev.unmount)
        [Ev.tick, Ev.tick, Ev.tick, Ev.tick]).fetchesIssued =
      appLive.fetchesIssued :=
  c6_no_fetch_after_stop appLive [Ev.tick, Ev.tick, Ev.tick, Ev.tick] (by decide)

/-- Claim C7: for any non-negative integer counters, the displayed average
detections per frame is the quotient `total_detections /
total_frames_processed` (rendered by `toFixed(1)`) when the denominator is
positive — and the denominator is then nonzero, so the division-by-zero
branch is never taken — and is the defined empty value `"0.0"` when
`total_frames_processed = 0`. -/
theorem c7_avg_detections (s z : StatsSnapshot)
    (hs : 0 < s.total_frames_processed) (hz : z.total_frames_processed = 0) :
    avgDetectionsDisplay s =
      toFixed1 ((s.total_detections : ℚ) / (s.total_frames_processed : ℚ)) ∧
    ((s.total_frames_processed : ℚ) ≠ 0) ∧
    avgDetectionsDisplay z = "0.0" := by
  refine ⟨?_, ?_, ?_⟩
  · simp [avgDetectionsDisplay, avgValue, hs]
  · exact_mod_cast hs.ne'
  · simp [avgDetectionsDisplay, hz]

/-- Witness for C7 at `snap3` (100 frames, 50 detections) and the
all-zero snapshot. -/
theorem c7_avg_detections_witness :
    avgDetectionsDisplay snap3 =
      toFixed1 ((snap3.total_detections : ℚ) / (snap3.total_frames_processed : ℚ)) ∧
    ((snap3.total_frames_processed : ℚ) ≠ 0) ∧
    avgDetectionsDisplay zeroSnap = "0.0" :=
  c7_avg_detections snap3 zeroSnap (by decide) rfl

/-- Claim C8: `getObjectCounts` over the empty detection sequence yields
the empty mapping; over any sequence it maps each label to its number of
occurrences (a key is present exactly when the label occurs); and over
`[car, car, person]` it yields `{car: 2, person: 1}`. -/
theorem c8_object_counts :
    getObjectCounts [] = [] ∧
    (∀ (l : List Detection) (k : String),
      lookupCount (getObjectCounts l) k = labelCount l k) ∧
    (∀ (l : List Detection) (k : String),
      hasKey (getObjectCounts l) k = true ↔ 0 < labelCount l k) ∧
    getObjectCounts [⟨"car"⟩, ⟨"car"⟩, ⟨"person"⟩] = [("car", 2), ("person", 1)] := by
  refine ⟨rfl, ?_, ?_, by decide⟩
  · intro l k
    have h := lookupCount_foldl l [] k
    simpa [getObjectCounts, lookupCount] using h
  · intro l k
    have h := hasKey_foldl l [] k
    simpa [getObjectCounts, hasKey] using h

/-- Claim C9: in the reachable state `appC9` (one successful `/stats` poll
storing `snap3`, whose queue depths are positive, then a queue-depth live
event reporting both depths as 0), both `SystemStats` queue cards display
the live value 0 while their health indicator takes the Backlog branch
(`healthy = false`), because the `||` health fallback treats the live 0 as
falsy and falls back to the positive snapshot value. -/
theorem c9_zero_live_depth_backlog :
    appC9.stats = some snap3 ∧
    appC9.liveData = some queueZeroEvent ∧
    queueZeroEvent.frame_queue_size = some 0 ∧
    queueZeroEvent.results_queue_size = some 0 ∧
    0 < snap3.frame_queue_size ∧
    0 < snap3.results_queue_size ∧
    renderQueueHealth appC9.stats appC9.liveData =
      some ({ value := some 0, healthy := false },
            { value := some 0, healthy := false }) := by
  exact ⟨rfl, rfl, rfl, rfl, by decide, by decide, rfl⟩

/-- Claim C10: while `stats` is still `null`, `Dashboard` renders only the
loading placeholder and `SystemStats` renders no Queue Health section, so
no queue depth is displayed even if a live event has already arrived (as
in the trace that mounts and receives a push frame before any poll
resolves); once a snapshot is stored, both render. -/
theorem c10_no_stats_placeholder (live : Option LiveEvent) (s : StatsSnapshot) :
    renderDashboard none live = none ∧
    renderQueueHealth none live = none ∧
    (renderDashboard (some s) live).isSome = true ∧
    (renderQueueHealth (some s) live).isSome = true ∧
    (run initApp [Ev.mount, Ev.wsMsg (Frame.parsed queueZeroEvent)]).stats = none ∧
    (run initApp [Ev.mount, Ev.wsMsg (Frame.parsed queueZeroEvent)]).liveData =
      some queueZeroEvent :=
  ⟨rfl, rfl, rfl, rfl, rfl, rfl⟩

end VideoAnalytics
